import Mathlib

/-!
Verification of the authentication-resolution core of the Nexus knowledge-graph
client (Personal-Knowledge-Graph-and-Link-Explorer).

The development shallowly embeds:
* the persisted auth store (useAuthStore.ts): state record and its five actions;
* the Google-login reconciliation flow (handleGoogleLogin in AuthModal):
  lookup-by-email, avatar sync, automatic registration, session establishment,
  with the backend's responses supplied as an explicit oracle and the calls the
  flow makes recorded as an event list;
* the local credential form submit (handleSubmit in AuthModal) with its
  validateEmail / validatePassword checks;
* the Classroom access-token resolver (useClassroomAccessToken) reduced to its
  pure token-priority computation;
* filterCoursesByName from the Classroom API wrapper module.

JavaScript value conventions used throughout: a string-or-null/undefined value
is an Option String with none for null/undefined; JS truthiness of such a value
is "some s with s nonempty" (the empty string is falsy in JS).
-/

/-- Profile record, as produced and consumed by the backend profile service and
stored in the auth store (fields id, email, displayName, avatarUrl, provider).
Optional fields are Option-valued; none stands for null/undefined. -/
structure Profile where
  id : String
  email : String
  displayName : Option String
  avatarUrl : Option String
  provider : Option String
  deriving Repr, DecidableEq

/-- Google userinfo payload fetched from the oauth2 userinfo endpoint:
the fields email, name, picture that handleGoogleLogin reads. -/
structure UserInfo where
  email : String
  name : Option String
  picture : Option String
  deriving Repr, DecidableEq

/-- Truthiness of a JS string-or-null value: null/undefined and the empty
string are falsy, every other string is truthy. -/
def jsTruthyStr : Option String → Bool
  | none => false
  | some s => if s = "" then false else true

/-! ## Auth store (useAuthStore.ts) -/

/-- State of the zustand auth store: fields user, isAuthenticated,
isAuthLoading, authError of useAuthStore. -/
structure AuthState where
  user : Option Profile
  isAuthenticated : Bool
  isAuthLoading : Bool
  authError : Option String
  deriving Repr, DecidableEq

/-- Initial store state: user null, isAuthenticated false, isAuthLoading
false, authError null. -/
def initialAuthState : AuthState :=
  { user := none, isAuthenticated := false, isAuthLoading := false, authError := none }

/-- Actions exposed by useAuthStore. -/
inductive AuthOp where
  | setUser (u : Option Profile)
  | setAuthLoading (b : Bool)
  | setAuthError (e : Option String)
  | login (u : Profile)
  | logout
  deriving Repr, DecidableEq

/-- Transition function of the store: each action performs exactly the field
updates its implementation passes to set. setUser writes user and
isAuthenticated := !!user (a Profile object is always truthy, so this is
presence of user); login writes user, isAuthenticated := true and clears
authError; logout clears user, isAuthenticated and authError. -/
def applyAuthOp (s : AuthState) : AuthOp → AuthState
  | .setUser u => { s with user := u, isAuthenticated := u.isSome }
  | .setAuthLoading b => { s with isAuthLoading := b }
  | .setAuthError e => { s with authError := e }
  | .login u => { s with user := some u, isAuthenticated := true, authError := none }
  | .logout => { s with user := none, isAuthenticated := false, authError := none }

/-- Run a sequence of store actions from a starting state. -/
def runAuthOps (s : AuthState) (ops : List AuthOp) : AuthState :=
  ops.foldl applyAuthOp s

/-! ## Form validation (AuthModal) -/

/-- Character class \x5b^\s@\x5d of the validateEmail regex: any character
that is neither whitespace nor the at-sign. -/
def emailChar (c : Char) : Bool :=
  !c.isWhitespace && c ≠ '@'

/-- validateEmail from AuthModal: the test of the anchored regex
one-or-more non-space-non-at characters, an at-sign, one-or-more
non-space-non-at characters, a dot, one-or-more non-space-non-at characters.
Equivalently: the string has exactly one at-sign, a nonempty local part, no
whitespace, and the domain part contains a dot that is neither its first nor
its last character. -/
def validateEmail (s : String) : Bool :=
  match s.toList.splitOn '@' with
  | [a, d] =>
    !a.isEmpty && a.all emailChar && d.all emailChar &&
      ((d.dropLast.drop 1).contains '.')
  | _ => false

/-- Check for the character class \x5ba-zA-Z\x5d used by validatePassword. -/
def isAsciiLetter (c : Char) : Bool :=
  ('a' ≤ c && c ≤ 'z') || ('A' ≤ c && c ≤ 'Z')

/-- Check for the character class \x5b0-9\x5d used by validatePassword. -/
def isAsciiDigit (c : Char) : Bool :=
  '0' ≤ c && c ≤ '9'

/-- validatePassword from AuthModal: length at least 6, at least one ASCII
letter, at least one ASCII digit. -/
def validatePassword (s : String) : Bool :=
  decide (6 ≤ s.length) && s.toList.any isAsciiLetter && s.toList.any isAsciiDigit

/-- Mode of the auth form: sign-in or sign-up. -/
inductive AuthMode where
  | login
  | signup
  deriving Repr, DecidableEq

/-- Outcome of handleSubmit before any asynchronous work: either a validation
error (no network request is issued) or the single backend call the submit
proceeds to, with its arguments. -/
inductive SubmitAction where
  | invalidEmail
  | invalidPassword
  | callLogin (email password : String)
  | callRegister (email password : String) (displayName : Option String)
  deriving Repr, DecidableEq

/-- handleSubmit from AuthModal, up to the first backend call: validates the
email, then the password (in both modes), and only then dispatches to
api.auth.register (signup) or api.auth.login (login). The display name is sent
as displayName-or-undefined (empty string becomes undefined). -/
def handleSubmit (mode : AuthMode) (email password displayName : String) : SubmitAction :=
  if !validateEmail email then .invalidEmail
  else if !validatePassword password then .invalidPassword
  else match mode with
    | .signup =>
      .callRegister email password (if displayName = "" then none else some displayName)
    | .login => .callLogin email password

/-! ## Google-login reconciliation (handleGoogleLogin in AuthModal) -/

/-- Result of the api.profiles.getByEmail call: either a profile, or a thrown
error carrying a message string. -/
inductive LookupResult where
  | found (p : Profile)
  | error (msg : String)
  deriving Repr, DecidableEq

/-- Oracle for the backend profile service during one reconciliation run:
the outcome of the lookup-by-email call, whether the avatar-sync update call
succeeds, and the outcome of the register call (profile returned, or thrown
error message). Only the branches the flow actually takes consult it. -/
structure Backend where
  lookup : LookupResult
  updateOk : Bool
  register : Except String Profile
  deriving Repr

/-- Check whether the first list is a prefix of the second, by characters. -/
def startsWithSeq : List Char → List Char → Bool
  | [], _ => true
  | _ :: _, [] => false
  | p :: ps, h :: hs => p == h && startsWithSeq ps hs

/-- Check whether the first list occurs contiguously inside the second: the
embedding of the JS String includes test on character sequences. The empty
pattern is contained in every string, as in JS. -/
def containsSeq : List Char → List Char → Bool
  | pat, [] => pat.isEmpty
  | pat, c :: hs => startsWithSeq pat (c :: hs) || containsSeq pat hs

/-- Classification of a caught lookup error in handleGoogleLogin: treat it as
not-found exactly when the message contains the substring 404 or the substring
Not Found. -/
def isNotFoundMsg (msg : String) : Bool :=
  containsSeq "404".toList msg.toList || containsSeq "Not Found".toList msg.toList

/-- Condition guarding the avatar sync in the existing-profile path:
userInfo.picture is truthy (present and nonempty) and differs (strict
inequality) from the found profile's avatarUrl. -/
def avatarNeedsSync (p : Profile) (ui : UserInfo) : Bool :=
  match ui.picture with
  | none => false
  | some pic => if pic = "" then false else if p.avatarUrl = some pic then false else true

/-- Payload handleGoogleLogin passes to api.profiles.update: the found
profile's id, email and displayName, the identity's picture as avatarUrl, and
provider set to google. -/
def updatePayload (p : Profile) (ui : UserInfo) : Profile :=
  { id := p.id, email := p.email, displayName := p.displayName,
    avatarUrl := ui.picture, provider := some "google" }

/-- Random credential generated in the new-profile path. Each of the 16 map
iterations evaluates charAt 2 of the base-36 string of a fresh Math.random()
draw; a draw is modelled as Option Char: some c is a draw in the open interval
0 to 1 whose base-36 expansion 0.c... has first fractional digit c, and none
is a draw of exactly 0, whose base-36 string is the single character 0 so that
charAt 2 is the empty string and contributes nothing to the join. The suffix
Aa1 is then appended. -/
def genPassword (draws : List (Option Char)) : String :=
  String.mk ((draws.take 16).filterMap id) ++ "Aa1"

/-- Backend calls observable during one reconciliation run, with the arguments
handleGoogleLogin passes. -/
inductive BackendCall where
  | lookupByEmail (email : String)
  | update (id : String) (payload : Profile)
  | register (email password : String) (displayName avatarUrl : Option String)
  deriving Repr, DecidableEq

/-- Terminal outcome of the reconciliation: login was invoked on the auth
store with the given profile, or the flow surfaced an error message and
touched no session state. -/
inductive ReconcileOutcome where
  | loggedIn (p : Profile)
  | failed (msg : String)
  deriving Repr, DecidableEq

/-- Trace of one reconciliation run: the backend calls issued, in order, and
the terminal outcome. -/
structure ReconcileResult where
  calls : List BackendCall
  outcome : ReconcileOutcome
  deriving Repr, DecidableEq

/-- Core of handleGoogleLogin after the userinfo fetch, as a function of the
identity, the backend oracle, and the run's sequence of random draws.
Branches, in source order: a successful lookup enters the existing-profile
path (best-effort avatar sync when avatarNeedsSync, then login with the local
profile reference, provider forced to google); a lookup error containing a
not-found marker enters the registration path (register with a generated
password, then login with the returned profile, provider google, or surface
the thrown message if register fails); any other lookup error aborts with the
could-not-verify message before any further call. -/
def reconcile (ui : UserInfo) (b : Backend) (draws : List (Option Char)) : ReconcileResult :=
  match b.lookup with
  | .found p =>
    if avatarNeedsSync p ui then
      let p' : Profile :=
        if b.updateOk then { p with avatarUrl := ui.picture, provider := some "google" } else p
      { calls := [.lookupByEmail ui.email, .update p.id (updatePayload p ui)],
        outcome := .loggedIn { p' with provider := some "google" } }
    else
      { calls := [.lookupByEmail ui.email],
        outcome := .loggedIn { p with provider := some "google" } }
  | .error msg =>
    if isNotFoundMsg msg then
      match b.register with
      | .ok q =>
        { calls := [.lookupByEmail ui.email,
                    .register ui.email (genPassword draws) ui.name ui.picture],
          outcome := .loggedIn { q with provider := some "google" } }
      | .error e =>
        { calls := [.lookupByEmail ui.email,
                    .register ui.email (genPassword draws) ui.name ui.picture],
          outcome := .failed e }
    else
      { calls := [.lookupByEmail ui.email],
        outcome := .failed "Could not verify account status. Please try again." }

/-- Effect of a reconciliation outcome on the auth store: a loggedIn outcome
performs exactly the store's login action; a failed outcome only sets the
modal's local error state and leaves the store untouched. -/
def sessionAfter (s : AuthState) (o : ReconcileOutcome) : AuthState :=
  match o with
  | .loggedIn p => applyAuthOp s (.login p)
  | .failed _ => s

/-- Predicate picking out update calls in a trace. -/
def isUpdateCall : BackendCall → Bool
  | .update _ _ => true
  | _ => false

/-- Predicate picking out register calls in a trace. -/
def isRegisterCall : BackendCall → Bool
  | .register _ _ _ _ => true
  | _ => false

/-! ## Classroom access-token resolver (useClassroomAccessToken) -/

/-- Inputs of the token-priority computation: the token read from
localStorage (none for null) and the access token carried on the session user
(none for undefined). -/
structure ClassroomTokenSources where
  storedToken : Option String
  sessionToken : Option String
  deriving Repr, DecidableEq

/-- Effective token: storedToken-or-sessionToken with JS truthiness, exactly
the accessToken computed by useClassroomAccessToken. -/
def effectiveAccessToken (t : ClassroomTokenSources) : Option String :=
  if jsTruthyStr t.storedToken then t.storedToken else t.sessionToken

/-- hasAccess of useClassroomAccessToken: truthiness of the effective token. -/
def hasClassroomAccess (t : ClassroomTokenSources) : Bool :=
  jsTruthyStr (effectiveAccessToken t)

/-! ## Classroom course filtering (classroomApi) -/

/-- Course state enumeration of the Classroom API. -/
inductive CourseState where
  | active
  | archived
  | provisioned
  | declined
  | suspended
  deriving Repr, DecidableEq

/-- ClassroomCourse record from the Classroom API wrapper module; optional
fields are Option-valued. -/
structure ClassroomCourse where
  id : String
  name : String
  description : Option String
  descriptionHeading : Option String
  room : Option String
  ownerId : String
  creationTime : String
  updateTime : String
  enrollmentCode : Option String
  courseState : CourseState
  alternateLink : Option String
  deriving Repr, DecidableEq

/-- Lowercased character list of a string, the embedding of toLowerCase
followed by includes-style comparison on the result. -/
def lowerChars (s : String) : List Char :=
  s.toList.map Char.toLower

/-- Blank test: the trim of the string is empty, i.e. every character is
whitespace, so that the searchTerm guard of filterCoursesByName fires. -/
def isBlankStr (s : String) : Bool :=
  s.toList.all Char.isWhitespace

/-- Predicate of the filter inside filterCoursesByName: the lowercased name,
or the lowercased description when present, or the lowercased
descriptionHeading when present, contains the given lowercased term. -/
def courseMatches (term : List Char) (c : ClassroomCourse) : Bool :=
  containsSeq term (lowerChars c.name) ||
  (match c.description with
   | some d => containsSeq term (lowerChars d)
   | none => false) ||
  (match c.descriptionHeading with
   | some h => containsSeq term (lowerChars h)
   | none => false)

/-- filterCoursesByName from the Classroom API wrapper: return the input list
unchanged when the search term trims to empty, otherwise keep exactly the
courses matched by the lowercased term. -/
def filterCoursesByName (courses : List ClassroomCourse) (searchTerm : String) :
    List ClassroomCourse :=
  if isBlankStr searchTerm then courses
  else courses.filter (courseMatches (lowerChars searchTerm))

/-! ## Concrete fixtures used to instantiate the theorems -/

/-- Sample third-party identity: email present, display name and picture set. -/
def uiX : UserInfo :=
  { email := "a@x.com", name := some "Alice", picture := some "http://img" }

/-- Sample stored profile for the same email, with no avatar yet. -/
def pX : Profile :=
  { id := "id1", email := "a@x.com", displayName := some "Al",
    avatarUrl := none, provider := some "local" }

/-- Sample profile as returned by a successful register call. -/
def qX : Profile :=
  { id := "id9", email := "a@x.com", displayName := some "Alice",
    avatarUrl := some "http://img", provider := none }

/-- Backend whose lookup fails with a server error (not a not-found). -/
def backendErr : Backend :=
  { lookup := .error "500 Internal Server Error", updateOk := true,
    register := .error "unreachable" }

/-- Backend whose lookup finds pX and whose avatar-sync update throws. -/
def backendFound : Backend :=
  { lookup := .found pX, updateOk := false, register := .error "unused" }

/-- Backend whose lookup fails with a confirmed not-found and whose register
call returns qX. -/
def backendNotFound : Backend :=
  { lookup := .error "HTTP 404: Not Found", updateOk := true, register := .ok qX }

/-- Sample sequence of sixteen nonzero random draws. -/
def drawsX : List (Option Char) := List.replicate 16 (some 'k')

/-- Token sources with both a stored and a session token. -/
def tokensBoth : ClassroomTokenSources :=
  { storedToken := some "S", sessionToken := some "T" }

/-- Token sources with only a session token. -/
def tokensSession : ClassroomTokenSources :=
  { storedToken := none, sessionToken := some "T" }

/-- Token sources with no token at all. -/
def tokensAbsent : ClassroomTokenSources :=
  { storedToken := none, sessionToken := none }

/-- Sample course whose description mentions algebra. -/
def courseA : ClassroomCourse :=
  { id := "1", name := "Math 101", description := some "Algebra",
    descriptionHeading := none, room := none, ownerId := "o",
    creationTime := "t0", updateTime := "t1", enrollmentCode := none,
    courseState := .active, alternateLink := none }

/-- Sample course whose heading mentions algebra in capitals. -/
def courseB : ClassroomCourse :=
  { courseA with
    id := "2", name := "History",
    description := none, descriptionHeading := some "World ALGEBRA" }

/-! ## Helper lemmas -/

/-- Unfolding of genPassword to a single character-list literal. -/
theorem genPassword_eq (draws : List (Option Char)) :
    genPassword draws =
      String.mk (((draws.take 16).filterMap id) ++ ['A', 'a', '1']) := rfl

/-- Exhaustive description of the call traces reconcile can produce: a bare
lookup, a lookup followed by one update on a found profile, or a lookup
followed by one register. -/
theorem reconcile_calls_cases (ui : UserInfo) (b : Backend) (draws : List (Option Char)) :
    (reconcile ui b draws).calls = [.lookupByEmail ui.email] ∨
    (∃ p, b.lookup = .found p ∧
      (reconcile ui b draws).calls =
        [.lookupByEmail ui.email, .update p.id (updatePayload p ui)]) ∨
    (reconcile ui b draws).calls =
      [.lookupByEmail ui.email,
       .register ui.email (genPassword draws) ui.name ui.picture] := by
  rcases hb : b.lookup with p | msg
  · by_cases hs : avatarNeedsSync p ui
    · exact Or.inr (Or.inl ⟨p, rfl, by simp [reconcile, hb, hs]⟩)
    · exact Or.inl (by simp [reconcile, hb, hs])
  · by_cases hn : isNotFoundMsg msg
    · rcases hr : b.register with e | q <;>
        exact Or.inr (Or.inr (by simp [reconcile, hb, hn, hr]))
    · exact Or.inl (by simp [reconcile, hb, hn])

/-- Step preservation of the auth-store invariant relating isAuthenticated to
presence of user. -/
theorem authInvariant_step (s : AuthState) (op : AuthOp)
    (h : s.isAuthenticated = s.user.isSome) :
    (applyAuthOp s op).isAuthenticated = (applyAuthOp s op).user.isSome := by
  cases op <;> simp [applyAuthOp, h]

/-- The auth-store invariant is preserved by any action sequence. -/
theorem runAuthOps_invariant (ops : List AuthOp) (s : AuthState)
    (h : s.isAuthenticated = s.user.isSome) :
    (runAuthOps s ops).isAuthenticated = (runAuthOps s ops).user.isSome := by
  induction ops generalizing s with
  | nil => exact h
  | cons op rest ih => exact ih (applyAuthOp s op) (authInvariant_step s op h)

/-! ## Claim theorems -/

/-- C1: in the Google-login reconciliation, if the lookup-by-email call fails
with an error that is not a not-found condition (no 404 / Not Found marker in
the message), the whole flow aborts with the could-not-verify error: the only
backend call made is the lookup, no register call and no update call occurs,
and the auth store is left unchanged. -/
theorem reconcile_aborts_on_unknown_lookup_failure
    (ui : UserInfo) (b : Backend) (draws : List (Option Char)) (msg : String)
    (hl : b.lookup = .error msg) (hnf : isNotFoundMsg msg = false) :
    (reconcile ui b draws).calls = [BackendCall.lookupByEmail ui.email] ∧
    (reconcile ui b draws).calls.filter isRegisterCall = [] ∧
    (reconcile ui b draws).calls.filter isUpdateCall = [] ∧
    (reconcile ui b draws).outcome =
      .failed "Could not verify account status. Please try again." ∧
    ∀ s : AuthState, sessionAfter s (reconcile ui b draws).outcome = s := by
  refine ⟨?_, ?_, ?_, ?_, ?_⟩ <;>
    simp [reconcile, hl, hnf, sessionAfter, isRegisterCall, isUpdateCall]

/-- Witness for C1 at a concrete identity and a backend whose lookup fails
with a 500 message. -/
theorem reconcile_aborts_on_unknown_lookup_failure_witness :
    (reconcile uiX backendErr []).calls = [BackendCall.lookupByEmail "a@x.com"] ∧
    (reconcile uiX backendErr []).outcome =
      .failed "Could not verify account status. Please try again." ∧
    sessionAfter initialAuthState (reconcile uiX backendErr []).outcome =
      initialAuthState := by
  have h := reconcile_aborts_on_unknown_lookup_failure uiX backendErr []
    "500 Internal Server Error" rfl (by decide)
  exact ⟨h.1, h.2.2.2.1, h.2.2.2.2 initialAuthState⟩

/-- C2: reconciliation never issues more than one update call and more than
one register call, and never both in one invocation; and whenever the lookup
finds an existing profile, no register call at all is made and the outcome
logs in a profile carrying the found profile's id, email and display name
with the provider tag set to google. -/
theorem reconcile_existing_profile_no_create
    (ui : UserInfo) (b : Backend) (draws : List (Option Char)) :
    (((reconcile ui b draws).calls.filter isUpdateCall).length ≤ 1 ∧
     ((reconcile ui b draws).calls.filter isRegisterCall).length ≤ 1 ∧
     ((reconcile ui b draws).calls.filter isUpdateCall = [] ∨
      (reconcile ui b draws).calls.filter isRegisterCall = [])) ∧
    ∀ p : Profile, b.lookup = .found p →
      (reconcile ui b draws).calls.filter isRegisterCall = [] ∧
      ∃ r : Profile, (reconcile ui b draws).outcome = .loggedIn r ∧
        r.id = p.id ∧ r.email = p.email ∧ r.displayName = p.displayName ∧
        r.provider = some "google" := by
  constructor
  · rcases reconcile_calls_cases ui b draws with h | ⟨p, hp, h⟩ | h <;>
      simp [h, isUpdateCall, isRegisterCall]
  · intro p hb
    by_cases hs : avatarNeedsSync p ui
    · by_cases hu : b.updateOk
      · refine ⟨by simp [reconcile, hb, hs, isRegisterCall],
          { p with avatarUrl := ui.picture, provider := some "google" },
          by simp [reconcile, hb, hs, hu], rfl, rfl, rfl, rfl⟩
      · refine ⟨by simp [reconcile, hb, hs, isRegisterCall],
          { p with provider := some "google" },
          by simp [reconcile, hb, hs, hu], rfl, rfl, rfl, rfl⟩
    · exact ⟨by simp [reconcile, hb, hs, isRegisterCall],
        { p with provider := some "google" },
        by simp [reconcile, hb, hs], rfl, rfl, rfl, rfl⟩

/-- Witness for C2 at a concrete identity and a backend that finds pX. -/
theorem reconcile_existing_profile_no_create_witness :
    (reconcile uiX backendFound []).calls.filter isRegisterCall = [] ∧
    (reconcile uiX backendFound []).outcome =
      .loggedIn { pX with provider := some "google" } := by
  have h := (reconcile_existing_profile_no_create uiX backendFound []).2 pX rfl
  exact ⟨h.1, by decide⟩

/-- C3: when the lookup fails with a confirmed not-found condition, reconcile
issues exactly one register call, carrying the identity's email, the generated
password, the display name and the avatar, and no update call; and when that
register call returns a profile with the requested email, the outcome logs in
that profile with provider google, so the session user has the identity's
email. -/
theorem reconcile_not_found_creates_account
    (ui : UserInfo) (b : Backend) (draws : List (Option Char)) (msg : String)
    (hl : b.lookup = .error msg) (hnf : isNotFoundMsg msg = true) :
    (reconcile ui b draws).calls =
      [.lookupByEmail ui.email,
       .register ui.email (genPassword draws) ui.name ui.picture] ∧
    (reconcile ui b draws).calls.filter isUpdateCall = [] ∧
    ((reconcile ui b draws).calls.filter isRegisterCall).length = 1 ∧
    ∀ q : Profile, b.register = .ok q → q.email = ui.email →
      ∃ r : Profile, (reconcile ui b draws).outcome = .loggedIn r ∧
        r.email = ui.email ∧ r.provider = some "google" ∧
        ∀ s : AuthState,
          (sessionAfter s (reconcile ui b draws).outcome).user = some r ∧
          (sessionAfter s (reconcile ui b draws).outcome).isAuthenticated = true := by
  refine ⟨?_, ?_, ?_, ?_⟩
  · rcases hr : b.register with e | q <;> simp [reconcile, hl, hnf, hr]
  · rcases hr : b.register with e | q <;>
      simp [reconcile, hl, hnf, hr, isUpdateCall]
  · rcases hr : b.register with e | q <;>
      simp [reconcile, hl, hnf, hr, isRegisterCall]
  · intro q hq hqe
    refine ⟨{ q with provider := some "google" },
      by simp [reconcile, hl, hnf, hq], by simpa using hqe, rfl, ?_⟩
    intro s
    constructor <;> simp [reconcile, hl, hnf, hq, sessionAfter, applyAuthOp]

/-- Witness for C3 at a concrete identity, a backend whose lookup reports a
404 and whose register returns qX, and sixteen nonzero draws. -/
theorem reconcile_not_found_creates_account_witness :
    (reconcile uiX backendNotFound drawsX).calls =
      [.lookupByEmail uiX.email,
       .register uiX.email (genPassword drawsX) uiX.name uiX.picture] ∧
    (reconcile uiX backendNotFound drawsX).outcome =
      .loggedIn { qX with provider := some "google" } ∧
    genPassword drawsX = "kkkkkkkkkkkkkkkkAa1" := by
  have h := reconcile_not_found_creates_account uiX backendNotFound drawsX
    "HTTP 404: Not Found" rfl (by decide)
  exact ⟨h.1, by decide, by decide⟩

/-- C4: in the existing-profile path, the update call is issued exactly when
the identity's picture is a nonempty string differing from the found
profile's avatarUrl, and then exactly once, with the merged payload (existing
id, email and display name, the new avatar, provider google); and whether or
not the update succeeds, the outcome still logs in a profile built from the
found profile with provider google. -/
theorem reconcile_avatar_sync_best_effort
    (ui : UserInfo) (b : Backend) (draws : List (Option Char)) (p : Profile)
    (hl : b.lookup = .found p) :
    ((reconcile ui b draws).calls.filter isUpdateCall =
       if avatarNeedsSync p ui then [.update p.id (updatePayload p ui)] else []) ∧
    (avatarNeedsSync p ui = true ↔
       ∃ pic, ui.picture = some pic ∧ pic ≠ "" ∧ p.avatarUrl ≠ some pic) ∧
    ∃ r : Profile, (reconcile ui b draws).outcome = .loggedIn r ∧
      r.id = p.id ∧ r.email = p.email ∧ r.displayName = p.displayName ∧
      r.provider = some "google" := by
  refine ⟨?_, ?_, ?_⟩
  · by_cases hs : avatarNeedsSync p ui <;>
      simp [reconcile, hl, hs, isUpdateCall]
  · unfold avatarNeedsSync
    rcases ui.picture with _ | pic
    · simp
    · by_cases h1 : pic = "" <;> by_cases h2 : p.avatarUrl = some pic <;>
        simp [h1, h2]
  · by_cases hs : avatarNeedsSync p ui
    · by_cases hu : b.updateOk
      · exact ⟨{ p with avatarUrl := ui.picture, provider := some "google" },
          by simp [reconcile, hl, hs, hu], rfl, rfl, rfl, rfl⟩
      · exact ⟨{ p with provider := some "google" },
          by simp [reconcile, hl, hs, hu], rfl, rfl, rfl, rfl⟩
    · exact ⟨{ p with provider := some "google" },
        by simp [reconcile, hl, hs], rfl, rfl, rfl, rfl⟩

/-- Witness for C4 at a concrete identity supplying a new avatar and a
backend whose update call throws: the update is attempted once and the
session is still established from the found profile. -/
theorem reconcile_avatar_sync_best_effort_witness :
    (reconcile uiX backendFound []).calls.filter isUpdateCall =
      [BackendCall.update pX.id (updatePayload pX uiX)] ∧
    (reconcile uiX backendFound []).outcome =
      .loggedIn { pX with provider := some "google" } := by
  have h := reconcile_avatar_sync_best_effort uiX backendFound [] pX rfl
  have h1 := h.1
  rw [show avatarNeedsSync pX uiX = true from by decide] at h1
  simp only [if_true] at h1
  exact ⟨h1, by decide⟩

/-- C5 counterexample: the claim quantifies over every sequence of random
draws, but Math.random may return exactly 0, whose base-36 string is the
single character 0, so charAt 2 is empty; if all sixteen draws do so the
generated credential is just the suffix Aa1, which is shorter than six
characters and fails validatePassword. -/
theorem genPassword_policy_counterexample :
    genPassword (List.replicate 16 none) = "Aa1" ∧
    validatePassword (genPassword (List.replicate 16 none)) = false := by
  decide

/-- C5 amended: for every sequence of random draws in which at least three of
the sixteen draws are nonzero (contribute a base-36 character), the generated
credential satisfies the password-acceptance policy applied to user-entered
passwords: length at least 6, at least one letter, at least one digit. -/
theorem genPassword_satisfies_policy (draws : List (Option Char))
    (h : 3 ≤ ((draws.take 16).filterMap id).length) :
    validatePassword (genPassword draws) = true := by
  rw [genPassword_eq]
  unfold validatePassword
  simp [String.length, String.toList, List.any_append, isAsciiLetter, isAsciiDigit]
  exact h

/-- Witness for the amended C5 at sixteen nonzero draws. -/
theorem genPassword_satisfies_policy_witness :
    3 ≤ ((drawsX.take 16).filterMap id).length ∧
    validatePassword (genPassword drawsX) = true :=
  ⟨by decide, genPassword_satisfies_policy drawsX (by decide)⟩

/-- C6: the Classroom access-token resolver prefers the locally stored token:
with both a stored token S (a token being a nonempty string) and a session
token T, the effective token is S; with only a session token T it is T; with
neither source present, hasAccess is false. -/
theorem classroom_token_priority (t : ClassroomTokenSources) (S T : String) :
    (t.storedToken = some S → S ≠ "" → t.sessionToken = some T →
      effectiveAccessToken t = some S) ∧
    (t.storedToken = none → t.sessionToken = some T →
      effectiveAccessToken t = some T) ∧
    (t.storedToken = none → t.sessionToken = none →
      hasClassroomAccess t = false) := by
  refine ⟨?_, ?_, ?_⟩
  · intro h1 h2 h3
    simp [effectiveAccessToken, jsTruthyStr, h1, h2]
  · intro h1 h2
    simp [effectiveAccessToken, jsTruthyStr, h1, h2]
  · intro h1 h2
    simp [hasClassroomAccess, effectiveAccessToken, jsTruthyStr, h1, h2]

/-- Witness for C6 at the three concrete source configurations. -/
theorem classroom_token_priority_witness :
    effectiveAccessToken tokensBoth = some "S" ∧
    effectiveAccessToken tokensSession = some "T" ∧
    hasClassroomAccess tokensAbsent = false :=
  ⟨(classroom_token_priority tokensBoth "S" "T").1 rfl (by decide) rfl,
   (classroom_token_priority tokensSession "S" "T").2.1 rfl rfl,
   (classroom_token_priority tokensAbsent "S" "T").2.2 rfl rfl⟩

/-- C7 counterexample: the submit handler checks the password format in login
mode too. With a well-formed email and the password abcdef (six letters, no
digit), login mode stops at the password validation instead of proceeding to
the backend authenticate call. -/
theorem login_password_recheck_counterexample :
    validateEmail "a@b.c" = true ∧
    handleSubmit AuthMode.login "a@b.c" "abcdef" "" = .invalidPassword ∧
    handleSubmit AuthMode.login "a@b.c" "abcdef" "" ≠
      .callLogin "a@b.c" "abcdef" := by
  decide

/-- C7 amended: the login operation performs the same email-format validation
as registration before any network call, and also re-checks the password
format: an email failing the format check yields the email validation error
in either mode, a policy-failing password then yields the password validation
error in either mode, and only an email passing the format check together
with a password passing the policy lets login proceed to the backend
authenticate call. -/
theorem handleSubmit_validation (mode : AuthMode) (email password displayName : String) :
    (handleSubmit mode email password displayName = .invalidEmail ↔
      validateEmail email = false) ∧
    (validateEmail email = true → validatePassword password = false →
      handleSubmit mode email password displayName = .invalidPassword) ∧
    (validateEmail email = true → validatePassword password = true →
      handleSubmit .login email password displayName = .callLogin email password) := by
  refine ⟨?_, ?_, ?_⟩
  · by_cases he : validateEmail email
    · by_cases hp : validatePassword password
      · cases mode <;> simp [handleSubmit, he, hp]
      · simp [handleSubmit, he, hp]
    · simp [handleSubmit, he]
  · intro he hp; simp [handleSubmit, he, hp]
  · intro he hp; simp [handleSubmit, he, hp]

/-- Witness for the amended C7: a valid email with a policy-passing password
reaches the authenticate call, and a malformed email is rejected. -/
theorem handleSubmit_validation_witness :
    handleSubmit AuthMode.login "a@b.c" "pw1234" "" = .callLogin "a@b.c" "pw1234" ∧
    handleSubmit AuthMode.login "not-an-email" "pw1234" "" = .invalidEmail :=
  ⟨(handleSubmit_validation AuthMode.login "a@b.c" "pw1234" "").2.2
      (by decide) (by decide),
   (handleSubmit_validation AuthMode.login "not-an-email" "pw1234" "").1.mpr
      (by decide)⟩

/-- C8: after any sequence of store actions (in particular any sequence of
setUser, login and logout) from the initial state, isAuthenticated holds
exactly when user is present; moreover setUser none makes isAuthenticated
false and setUser (some p) makes it true, from any state. -/
theorem authStore_isAuthenticated_iff_user (ops : List AuthOp) :
    ((runAuthOps initialAuthState ops).isAuthenticated = true ↔
      (runAuthOps initialAuthState ops).user.isSome = true) ∧
    (∀ s : AuthState, (applyAuthOp s (.setUser none)).isAuthenticated = false) ∧
    (∀ (s : AuthState) (p : Profile),
      (applyAuthOp s (.setUser (some p))).isAuthenticated = true) := by
  refine ⟨?_, ?_, ?_⟩
  · rw [runAuthOps_invariant ops initialAuthState rfl]
  · intro s; simp [applyAuthOp]
  · intro s p; simp [applyAuthOp]

/-- C9: frame effects of the store actions. login sets user, isAuthenticated
and clears authError while leaving isAuthLoading unchanged; logout clears
user, isAuthenticated and authError while leaving isAuthLoading unchanged;
setUser writes user and isAuthenticated only, leaving authError and
isAuthLoading unchanged. -/
theorem authStore_action_frame (s : AuthState) (u : Profile) (v : Option Profile) :
    ((applyAuthOp s (.login u)).user = some u ∧
     (applyAuthOp s (.login u)).isAuthenticated = true ∧
     (applyAuthOp s (.login u)).authError = none ∧
     (applyAuthOp s (.login u)).isAuthLoading = s.isAuthLoading) ∧
    ((applyAuthOp s .logout).user = none ∧
     (applyAuthOp s .logout).isAuthenticated = false ∧
     (applyAuthOp s .logout).authError = none ∧
     (applyAuthOp s .logout).isAuthLoading = s.isAuthLoading) ∧
    ((applyAuthOp s (.setUser v)).user = v ∧
     (applyAuthOp s (.setUser v)).isAuthenticated = v.isSome ∧
     (applyAuthOp s (.setUser v)).authError = s.authError ∧
     (applyAuthOp s (.setUser v)).isAuthLoading = s.isAuthLoading) :=
  ⟨⟨rfl, rfl, rfl, rfl⟩, ⟨rfl, rfl, rfl, rfl⟩, ⟨rfl, rfl, rfl, rfl⟩⟩

/-- C10: filterCoursesByName is the identity whenever the search term is
blank (empty or whitespace-only); for a non-blank term it returns exactly the
courses whose lowercased name, description or description heading contains
the lowercased term, as a filter of the input; and in every case the result
is a sublist of the input, so original order is preserved. -/
theorem filterCoursesByName_correct (courses : List ClassroomCourse) (t : String) :
    (isBlankStr t = true → filterCoursesByName courses t = courses) ∧
    (isBlankStr t = false →
      filterCoursesByName courses t =
        courses.filter (courseMatches (lowerChars t))) ∧
    List.Sublist (filterCoursesByName courses t) courses := by
  refine ⟨?_, ?_, ?_⟩
  · intro h; simp [filterCoursesByName, h]
  · intro h; simp [filterCoursesByName, h]
  · by_cases h : isBlankStr t
    · simp [filterCoursesByName, h]
    · simp [filterCoursesByName, h]

/-- Witness for C10: a whitespace-only term returns the input unchanged, and
a non-blank term filters by lowercased containment. -/
theorem filterCoursesByName_correct_witness :
    filterCoursesByName [courseA, courseB] " " = [courseA, courseB] ∧
    filterCoursesByName [courseA, courseB] "math" =
      ([courseA, courseB].filter (courseMatches (lowerChars "math"))) :=
  ⟨(filterCoursesByName_correct [courseA, courseB] " ").1 (by decide),
   (filterCoursesByName_correct [courseA, courseB] "math").2.1 (by decide)⟩
